import Mathlib

set_option maxRecDepth 8000

/-!
Verification of the retrieval pipeline of obsidian-rag-cli.

This file shallowly embeds the core of the repository:
  src/obsidian_rag/core/searcher.py  (VectorSearcher: load index, search,
                                      get_rag_context, get_stats)
  src/obsidian_rag/core/indexer.py   (VaultIndexer: scan_documents,
                                      load_documents, index_vault)
  src/obsidian_rag/api/client.py     (ObsidianRAG: api_search,
                                      api_get_rag_context)
  src/obsidian_rag/core/models.py    (pydantic data models)

Embedding conventions:
  - Python str maps to String; Python len(s) counts code points, which
    matches String.length.  Slicing s[:n] for n >= 0 maps to pyTake.
  - Python float scores map to the rationals: the claims only compare
    scores, and no score arithmetic occurs, so rational comparison is the
    faithful model for non-NaN floats.
  - Python exceptions map to Except PyError; a try/except block maps to a
    match on the Except value.
  - The external capability providers (HuggingFace embedding model,
    ChromaDB vector store, llama-index retriever) are modelled by an
    abstract environment: whether the vector-store path exists, whether
    the named collection exists, whether retrieval raises, and the ranked
    node list the backend returns for the query at hand.
  - Wall-clock fields (query_time_ms, time_elapsed_ms) and the float
    vector_store_size_mb field are not modelled: they are wall-clock and
    floating-point respectively and no claim depends on them.
  - The node metadata dict is modelled by the only two keys the code ever
    reads from it: file_path and file_name (absent key = none).
-/

/-- GlobalConfig from src/obsidian_rag/core/models.py (log_level kept,
timing-irrelevant fields kept with their source defaults). -/
structure GlobalConfig where
  embedding_model : String := "sentence-transformers/all-MiniLM-L6-v2"
  chunk_size : Nat := 512
  chunk_overlap : Nat := 50
  default_top_k : Nat := 5
  default_max_chars : Int := 10000
  min_relevance_score : Rat := mkRat 3 10
  log_level : String := "INFO"
  deriving DecidableEq

/-- VaultConfig from src/obsidian_rag/core/models.py. -/
structure VaultConfig where
  name : String
  dirs : List String := ["."]
  vector_store : String := ".vector_store"
  deriving DecidableEq

/-- One node returned by the llama-index retriever: its optional score,
its text, and the two metadata keys the code reads. -/
structure Node where
  score : Option Rat
  text : String
  meta_file_path : Option String
  meta_file_name : Option String
  deriving DecidableEq

/-- SearchResult from src/obsidian_rag/core/models.py; the metadata dict
is carried as its one further key read later (file_name). -/
structure SearchResult where
  file_path : String
  score : Rat
  chunk : String
  meta_file_name : Option String
  deriving DecidableEq

/-- SearchResponse from src/obsidian_rag/core/models.py (query_time_ms not
modelled: wall clock). -/
structure SearchResponse where
  status : String
  query : String
  results : List SearchResult
  count : Nat
  deriving DecidableEq

/-- RAGSource from src/obsidian_rag/core/models.py. -/
structure RAGSource where
  file_name : String
  file_path : String
  relevance_score : Rat
  char_count : Nat
  deriving DecidableEq

/-- RAGResponse from src/obsidian_rag/core/models.py (query_time_ms not
modelled: wall clock). -/
structure RAGResponse where
  status : String
  query : String
  context : String
  sources : List RAGSource
  context_length : Nat
  deriving DecidableEq

/-- IndexResult from src/obsidian_rag/core/models.py (time_elapsed_ms not
modelled: wall clock). -/
structure IndexResult where
  status : String
  documents_indexed : Nat
  chunks_created : Nat
  vector_store_path : String
  errors : List String
  deriving DecidableEq

/-- VaultStats from src/obsidian_rag/core/models.py (vector_store_size_mb
not modelled: floating-point division of an on-disk size). -/
structure VaultStats where
  status : String
  vault_name : String
  vault_path : String
  document_count : Nat
  chunk_count : Nat
  embedding_model : String
  deriving DecidableEq

/-- Python exceptions raised or caught in searcher.py. -/
inductive PyError where
  | fileNotFound (m : String)
  | valueError (m : String)
  | other (m : String)
  deriving DecidableEq

/-- The message carried by an exception. -/
def PyError.msg : PyError → String
  | .fileNotFound m => m
  | .valueError m => m
  | .other m => m

/-- Abstract state of the external world seen by VectorSearcher: whether
the vector-store path exists on disk, whether the ChromaDB collection
exists, whether the retrieval call raises, and the ranked node list the
backend returns for the query at hand (the retriever is asked for
similarity_top_k = top_k nodes, modelled by List.take). -/
structure SearchEnv where
  storeExists : Bool
  collectionExists : Bool
  retrieveFails : Bool
  nodes : List Node

/-- Python slice chunk[:n] for n >= 0: the first n code points. -/
def pyTake (s : String) (n : Nat) : String := ⟨s.data.take n⟩

/-- The common tail of both error messages of load_index in searcher.py,
telling the caller to index first. -/
def indexFirstDirective : String := "Please run \x27orag index\x27 first."

/-- VectorSearcher._load_index, searcher.py lines 35-70.  Raises
FileNotFoundError when the vector-store path is missing and ValueError
when the collection is missing; otherwise the index handle loads (the
handle itself is abstract, so the payload is Unit). -/
def load_index (env : SearchEnv) (vector_store_path coll_name : String) :
    Except PyError Unit :=
  if env.storeExists = false then
    .error (.fileNotFound
      (("Vector store not found at " ++ vector_store_path ++ ". ") ++
        indexFirstDirective))
  else if env.collectionExists = false then
    .error (.valueError
      (("Collection \x27" ++ coll_name ++ "\x27 not found. ") ++
        indexFirstDirective))
  else
    .ok ()

/-- retriever.retrieve(query), searcher.py lines 78-81: the backend
returns at most top_k ranked nodes, or raises. -/
def retrieveTop (env : SearchEnv) (topK : Nat) : Except PyError (List Node) :=
  if env.retrieveFails then .error (.other "retrieval failed")
  else .ok (env.nodes.take topK)

/-- node.score if node.score is not None else 0.0, searcher.py line 86. -/
def effScore (n : Node) : Rat := n.score.getD 0

/-- Building one SearchResult from a node, searcher.py lines 92-97. -/
def toResult (n : Node) : SearchResult :=
  { file_path := n.meta_file_path.getD "unknown"
    score := effScore n
    chunk := n.text
    meta_file_name := n.meta_file_name }

/-- The result-conversion loop of search, searcher.py lines 84-98: keep a
node unless its effective score is below min_score. -/
def searchResults (nodes : List Node) (minScore : Rat) : List SearchResult :=
  (nodes.filter (fun n => !(decide (effScore n < minScore)))).map toResult

/-- The body of the try block of VectorSearcher.search, searcher.py
lines 76-98. -/
def searchRun (env : SearchEnv) (vector_store_path coll_name : String)
    (topK : Nat) (minScore : Rat) : Except PyError (List SearchResult) :=
  match load_index env vector_store_path coll_name with
  | .error e => .error e
  | .ok _ =>
    match retrieveTop env topK with
    | .error e => .error e
    | .ok nodes => .ok (searchResults nodes minScore)

/-- VectorSearcher.search, searcher.py lines 72-118: the try/except wraps
the whole body, so every exception becomes the generic error response
with zero results. -/
def search (env : SearchEnv) (vector_store_path coll_name query : String)
    (topK : Nat) (minScore : Rat) : SearchResponse :=
  match searchRun env vector_store_path coll_name topK minScore with
  | .ok results => ⟨"success", query, results, results.length⟩
  | .error _ => ⟨"error", query, [], 0⟩

/-- One context part, f-string at searcher.py lines 156 and 159. -/
def mkPart (file_path chunk : String) : String :=
  "## " ++ file_path ++ "\n\n" ++ chunk

/-- Python "sep".join(parts), searcher.py line 171. -/
def joinParts : List String → String
  | [] => ""
  | [p] => p
  | p :: ps => p ++ "\n\n---\n\n" ++ joinParts ps

/-- The context-packing loop of get_rag_context, searcher.py lines
147-169, returning (context_parts, sources).  Note the truncation branch
appends a context part and then breaks without appending to sources. -/
def pack : List SearchResult → Int → Nat → List String × List RAGSource
  | [], _, _ => ([], [])
  | r :: rest, maxChars, total =>
    let chunk := r.chunk
    let chunk_len := chunk.length
    if (total : Int) + chunk_len > maxChars then
      let remaining : Int := maxChars - total
      if remaining > 100 then
        ([mkPart r.file_path (pyTake chunk remaining.toNat ++ "...")], [])
      else
        ([], [])
    else
      let packed := pack rest maxChars (total + chunk_len)
      (mkPart r.file_path chunk :: packed.1,
        { file_name := r.meta_file_name.getD "unknown"
          file_path := r.file_path
          relevance_score := r.score
          char_count := chunk_len } :: packed.2)

/-- VectorSearcher.get_rag_context, searcher.py lines 120-192.  It
searches with top_k = max_sources and min_score =
global_config.min_relevance_score; nothing in the try body after that can
raise, so the outer except branch is dead in the embedding. -/
def get_rag_context (env : SearchEnv) (gcfg : GlobalConfig)
    (vector_store_path coll_name query : String)
    (maxChars : Int) (maxSources : Nat) : RAGResponse :=
  let sr := search env vector_store_path coll_name query maxSources
    gcfg.min_relevance_score
  if sr.status = "error" ∨ sr.results = [] then
    ⟨"error", query, "", [], 0⟩
  else
    let packed := pack sr.results maxChars 0
    let context := joinParts packed.1
    ⟨"success", query, context, packed.2, context.length⟩

/-- The formatting overhead that get_rag_context adds around raw chunk
content for a given ranked-result list and budget: the per-part header
"## file_path\n\n", one inter-part separator allowance per fully packed
part, and the "..." truncation marker.  It mirrors the branch structure
of the packing loop so that the overhead counts exactly the parts that
get packed. -/
def formattingOverhead : List SearchResult → Int → Nat → Nat
  | [], _, _ => 0
  | r :: rest, maxChars, total =>
    if (total : Int) + r.chunk.length > maxChars then
      if maxChars - (total : Int) > 100 then
        ("## " ++ r.file_path ++ "\n\n").length + "...".length
      else 0
    else
      ("## " ++ r.file_path ++ "\n\n").length + "\n\n---\n\n".length +
        formattingOverhead rest maxChars (total + r.chunk.length)

/-- Python numeric-or idiom x or d for an optional Nat argument: None and
0 are falsy. -/
def pyOrNat (v : Option Nat) (d : Nat) : Nat :=
  match v with
  | none => d
  | some x => if x = 0 then d else x

/-- Python numeric-or idiom for an optional Int argument. -/
def pyOrInt (v : Option Int) (d : Int) : Int :=
  match v with
  | none => d
  | some x => if x = 0 then d else x

/-- Python numeric-or idiom for an optional float argument (0.0 falsy). -/
def pyOrRat (v : Option Rat) (d : Rat) : Rat :=
  match v with
  | none => d
  | some x => if x = 0 then d else x

/-- ObsidianRAG.search, src/obsidian_rag/api/client.py lines 64-87:
top_k or default_top_k, min_score or min_relevance_score. -/
def api_search (env : SearchEnv) (gcfg : GlobalConfig)
    (vector_store_path coll_name query : String)
    (top_k : Option Nat) (min_score : Option Rat) : SearchResponse :=
  search env vector_store_path coll_name query
    (pyOrNat top_k gcfg.default_top_k)
    (pyOrRat min_score gcfg.min_relevance_score)

/-- ObsidianRAG.get_rag_context, src/obsidian_rag/api/client.py lines
89-112: max_chars or default_max_chars, max_sources or 5. -/
def api_get_rag_context (env : SearchEnv) (gcfg : GlobalConfig)
    (vector_store_path coll_name query : String)
    (max_chars : Option Int) (max_sources : Option Nat) : RAGResponse :=
  get_rag_context env gcfg vector_store_path coll_name query
    (pyOrInt max_chars gcfg.default_max_chars)
    (pyOrNat max_sources 5)

/-- One filesystem entry as VaultIndexer.scan_documents probes it: a file
(with the pathlib suffix check full_path.suffix == ".md" abstracted to a
flag), a directory (carrying the list of paths its rglob("*.md") call
yields, in whatever order the OS walks them), or nothing. -/
inductive FSEntry where
  | file (isMd : Bool)
  | dir (mdFiles : List String)
  | absent

/-- The directory tree, keyed by path string. -/
structure FS where
  entry : String → FSEntry

/-- pathlib vault_path / dir_path on POSIX. -/
def joinPath (a b : String) : String := a ++ "/" ++ b

/-- Lexicographic order on strings, decided through the character lists
so that sorting reduces inside the kernel. -/
def strLeDec : DecidableRel ((· ≤ ·) : String → String → Prop) :=
  fun _ _ => decidable_of_iff _ String.le_iff_toList_le.symm

/-- The per-directory branch of the scan loop, indexer.py lines 30-40:
an absent entry is warned about and skipped, a markdown file is included
directly, a directory contributes its recursive rglob results. -/
def scanOne (fs : FS) (vault_path dir_path : String) : List String :=
  match fs.entry (joinPath vault_path dir_path) with
  | .absent => []
  | .file isMd => if isMd then [joinPath vault_path dir_path] else []
  | .dir mdFiles => mdFiles

/-- VaultIndexer.scan_documents, indexer.py lines 26-46: collect over the
configured directories in order, then sorted(set(md_files)), which is the
sorted list of the distinct collected paths. -/
def scan_documents (fs : FS) (vault_path : String) (cfg : VaultConfig) :
    List String :=
  let md_files := (cfg.dirs.map (scanOne fs vault_path)).flatten
  @List.insertionSort String (· ≤ ·) strLeDec md_files.dedup

/-- One loaded Document, indexer.py lines 57-64: text plus the metadata
that propagates to every derived chunk. -/
structure Document where
  text : String
  file_path : String
  file_name : String
  vault : String
  deriving DecidableEq

/-- pathlib file_path.relative_to(vault_path) for a path beneath the
vault root: drop the root and the separator. -/
def relativeTo (vault_path p : String) : String :=
  p.drop (vault_path.length + 1)

/-- pathlib Path.name: the final path component. -/
def baseName (p : String) : String := (p.splitOn "/").getLastD p

/-- Abstract state of the external world seen by VaultIndexer: the
directory tree, the result of reading each file as UTF-8 text, and
whether the embed-and-store step (create_index) raises. -/
structure IndexEnv where
  fs : FS
  readText : String → Except String String
  backendFails : Bool
  backendErrMsg : String

/-- VaultIndexer.load_documents, indexer.py lines 48-70: a file whose
read raises is logged and skipped; the rest become Documents tagged with
vault-relative path, file name, and vault name. -/
def load_documents (env : IndexEnv) (vault_path vault : String)
    (file_paths : List String) : List Document :=
  file_paths.filterMap (fun p =>
    match env.readText p with
    | .error _ => none
    | .ok content =>
      some ⟨content, relativeTo vault_path p, baseName p, vault⟩)

/-- VaultIndexer.index_vault, indexer.py lines 108-158.  The returned
Bool records whether create_index was invoked, i.e. whether any write to
the vector-store location (mkdir, collection create-or-open, upserts)
occurred; the empty-scan branch returns before create_index, so it
performs no writes.  chunks_created on success is the estimate
total_chars // chunk_size from lines 137-138. -/
def index_vault (env : IndexEnv) (vault_path : String)
    (vcfg : VaultConfig) (gcfg : GlobalConfig) : IndexResult × Bool :=
  let vsp := joinPath vault_path vcfg.vector_store
  let file_paths := scan_documents env.fs vault_path vcfg
  if file_paths = [] then
    (⟨"error", 0, 0, vsp,
      ["No markdown files found in specified directories"]⟩, false)
  else
    let documents := load_documents env vault_path vcfg.name file_paths
    if env.backendFails then
      (⟨"error", 0, 0, vsp, [env.backendErrMsg]⟩, true)
    else
      let total_chars := (documents.map (fun d => d.text.length)).sum
      (⟨"success", documents.length, total_chars / gcfg.chunk_size, vsp,
        []⟩, true)

/-- Abstract state of the external world seen by get_stats: whether the
vector-store path exists, whether collection lookup raises, the
collection item count, and the file_path metadata value stored on each
chunk (none when the key is absent). -/
structure StatsEnv where
  storeExists : Bool
  collectionMissing : Bool
  chunkCount : Nat
  metadatas : List (Option String)

/-- The document-count estimate of get_stats, searcher.py lines 223-228:
the number of distinct meta.get("file_path", "") values. -/
def distinctFilePaths (metadatas : List (Option String)) : Nat :=
  ((metadatas.map (fun m => m.getD "")).dedup).length

/-- VectorSearcher.get_stats, searcher.py lines 194-250.  A missing
vector-store path returns the error stats directly; a raising collection
lookup lands in the except branch with the same error stats; otherwise
document_count is the distinct-file-path estimate with the
chunk_count // 3 fallback when the estimate is zero. -/
def get_stats (env : StatsEnv) (vault_path : String)
    (vcfg : VaultConfig) (gcfg : GlobalConfig) : VaultStats :=
  if env.storeExists = false then
    ⟨"error", vcfg.name, vault_path, 0, 0, gcfg.embedding_model⟩
  else if env.collectionMissing then
    ⟨"error", vcfg.name, vault_path, 0, 0, gcfg.embedding_model⟩
  else
    let chunk_count := env.chunkCount
    let document_count := distinctFilePaths env.metadatas
    ⟨"success", vcfg.name, vault_path,
      if document_count > 0 then document_count else chunk_count / 3,
      chunk_count, gcfg.embedding_model⟩

/-- Default GlobalConfig, as pydantic constructs it with no overrides. -/
def gDefault : GlobalConfig := {}

/-- A 200-character chunk for the concrete scenarios. -/
def longText : String := ⟨List.replicate 200 'a'⟩

/-- A well-scored node holding the long chunk. -/
def nodeA : Node :=
  { score := some (mkRat 9 10)
    text := longText
    meta_file_path := some "notes/a.md"
    meta_file_name := some "a.md" }

/-- A second, lower-scored node with a short chunk. -/
def nodeB : Node :=
  { score := some (mkRat 1 2)
    text := "short beta text"
    meta_file_path := some "notes/b.md"
    meta_file_name := some "b.md" }

/-- A healthy environment whose backend returns the long chunk first. -/
def envOk : SearchEnv :=
  { storeExists := true
    collectionExists := true
    retrieveFails := false
    nodes := [nodeA] }

/-- A healthy environment with two ranked nodes. -/
def envTwo : SearchEnv :=
  { storeExists := true
    collectionExists := true
    retrieveFails := false
    nodes := [nodeA, nodeB] }

/-- The environment before any index run: the vector-store path does not
exist. -/
def envNoStore : SearchEnv :=
  { storeExists := false
    collectionExists := true
    retrieveFails := false
    nodes := [nodeA] }

/-- An environment where the store exists but retrieval raises. -/
def envRetrFail : SearchEnv :=
  { storeExists := true
    collectionExists := true
    retrieveFails := true
    nodes := [] }

/-- An empty directory tree. -/
def fsEmpty : FS := ⟨fun _ => FSEntry.absent⟩

/-- An indexer environment over the empty tree. -/
def envEmptyIdx : IndexEnv :=
  { fs := fsEmpty
    readText := fun _ => .error "unreadable"
    backendFails := false
    backendErrMsg := "" }

/-- A vault config naming one (absent) directory. -/
def vcfgW : VaultConfig := { name := "notes" }

/-- A stats environment with three chunks over two distinct files. -/
def envStats : StatsEnv :=
  { storeExists := true
    collectionMissing := false
    chunkCount := 7
    metadatas := [some "a.md", some "a.md", some "b.md"] }

/-- A stats environment whose collection has chunks but no metadata. -/
def envStatsEmptyMeta : StatsEnv :=
  { storeExists := true
    collectionMissing := false
    chunkCount := 7
    metadatas := [] }

theorem pyTake_length (s : String) (n : Nat) :
    (pyTake s n).length = min n s.length := by
  cases s
  simp [pyTake, String.length]

theorem search_cases (env : SearchEnv) (vector_store_path coll_name q : String)
    (topK : Nat) (minScore : Rat) :
    search env vector_store_path coll_name q topK minScore =
      ⟨"success", q, searchResults (env.nodes.take topK) minScore,
        (searchResults (env.nodes.take topK) minScore).length⟩ ∨
    search env vector_store_path coll_name q topK minScore =
      ⟨"error", q, [], 0⟩ := by
  cases hs : env.storeExists with
  | false => right; simp [search, searchRun, load_index, hs]
  | true =>
    cases hc : env.collectionExists with
    | false => right; simp [search, searchRun, load_index, hs, hc]
    | true =>
      cases hrf : env.retrieveFails with
      | true => right; simp [search, searchRun, load_index, retrieveTop, hs, hc, hrf]
      | false => left; simp [search, searchRun, load_index, retrieveTop, hs, hc, hrf]

/-- C4: every result returned by search has score at least minScore. -/
theorem C4_theorem (env : SearchEnv) (vector_store_path coll_name q : String)
    (topK : Nat) (minScore : Rat) (r : SearchResult)
    (hr : r ∈ (search env vector_store_path coll_name q topK minScore).results) :
    minScore ≤ r.score := by
  rcases search_cases env vector_store_path coll_name q topK minScore with h | h
  · rw [h] at hr
    simp only [searchResults] at hr
    obtain ⟨n, hn, rfl⟩ := List.mem_map.mp hr
    have hkeep := (List.mem_filter.mp hn).2
    simp only [Bool.not_eq_true', decide_eq_false_iff_not, not_lt] at hkeep
    exact hkeep
  · rw [h] at hr
    simp at hr

/-- C4 witness: a concrete search keeps only results clearing the
threshold; its first result indeed scores at least 3/10. -/
theorem C4_witness : mkRat 3 10 ≤ (toResult nodeA).score :=
  C4_theorem envOk "vs" "c" "q" 5 (mkRat 3 10) (toResult nodeA) (by decide)

/-- C5: assuming the backend hands back its neighbors in non-increasing
effective-score order, the filtered result list of search is sorted in
non-increasing score order. -/
theorem C5_theorem (env : SearchEnv) (vector_store_path coll_name q : String)
    (topK : Nat) (minScore : Rat)
    (hsorted : List.Sorted (· ≥ ·) (env.nodes.map effScore)) :
    List.Sorted (· ≥ ·)
      ((search env vector_store_path coll_name q topK minScore).results.map
        SearchResult.score) := by
  rcases search_cases env vector_store_path coll_name q topK minScore with h | h
  · rw [h]
    simp only [searchResults, List.map_map]
    have hfun : SearchResult.score ∘ toResult = effScore := rfl
    rw [hfun]
    have hsub :
        List.Sublist
          (((env.nodes.take topK).filter
            (fun n => !(decide (effScore n < minScore)))).map effScore)
          (env.nodes.map effScore) :=
      List.Sublist.map effScore
        ((List.filter_sublist _).trans (List.take_sublist _ _))
    exact hsorted.sublist hsub
  · rw [h]
    simp

/-- C5 witness: a concrete two-node backend list in descending order
yields a search result list with non-increasing scores. -/
theorem C5_witness :
    List.Sorted (· ≥ ·)
      ((search envTwo "vs" "c" "q" 5 (mkRat 3 10)).results.map SearchResult.score) :=
  C5_theorem envTwo "vs" "c" "q" 5 (mkRat 3 10) (by decide)

/-- C9: at the ObsidianRAG API, an explicitly passed falsy value for an
optional numeric parameter is replaced by the configured default, exactly
as if the parameter were omitted: top_k = 0, min_score = 0.0,
max_chars = 0 and max_sources = 0 all substitute the defaults, so a
caller cannot request an unfiltered search by passing min_score = 0.0. -/
theorem C9_theorem (env : SearchEnv) (gcfg : GlobalConfig)
    (vector_store_path coll_name q : String)
    (tk : Option Nat) (ms : Option Rat) (mc : Option Int) (msrc : Option Nat) :
    api_search env gcfg vector_store_path coll_name q (some 0) ms =
      api_search env gcfg vector_store_path coll_name q none ms ∧
    api_search env gcfg vector_store_path coll_name q tk (some 0) =
      api_search env gcfg vector_store_path coll_name q tk none ∧
    api_get_rag_context env gcfg vector_store_path coll_name q (some 0) msrc =
      api_get_rag_context env gcfg vector_store_path coll_name q none msrc ∧
    api_get_rag_context env gcfg vector_store_path coll_name q mc (some 0) =
      api_get_rag_context env gcfg vector_store_path coll_name q mc none := by
  refine ⟨?_, ?_, ?_, ?_⟩ <;>
    simp [api_search, api_get_rag_context, pyOrNat, pyOrInt, pyOrRat]

/-- C10: when search succeeds with at least one result but the
highest-ranked chunk is longer than max_chars and max_chars is at most
100, get_rag_context still reports success, with empty context, length
zero and no sources. -/
theorem C10_theorem (env : SearchEnv) (gcfg : GlobalConfig)
    (vector_store_path coll_name q : String) (maxChars : Int)
    (maxSources : Nat) (r : SearchResult) (rest : List SearchResult)
    (hres : (search env vector_store_path coll_name q maxSources
      gcfg.min_relevance_score).results = r :: rest)
    (hlong : maxChars < (r.chunk.length : Int))
    (hsmall : maxChars ≤ 100) :
    get_rag_context env gcfg vector_store_path coll_name q maxChars maxSources =
      ⟨"success", q, "", [], 0⟩ := by
  rcases search_cases env vector_store_path coll_name q maxSources
    gcfg.min_relevance_score with h | h
  · unfold get_rag_context
    rw [h]
    rw [h] at hres
    simp only at hres
    have hcond : ¬ (("success" : String) = "error" ∨
        searchResults (env.nodes.take maxSources) gcfg.min_relevance_score =
          ([] : List SearchResult)) := by
      rw [hres]
      simp
    rw [if_neg hcond]
    have hpack : pack (searchResults (env.nodes.take maxSources)
        gcfg.min_relevance_score) maxChars 0 = ([], []) := by
      rw [hres]
      simp only [pack]
      rw [if_pos (by push_cast; omega)]
      rw [if_neg (by omega)]
    rw [hpack]
    rfl
  · rw [h] at hres
    simp at hres

/-- C10 witness: with a 200-character top chunk and max_chars = 50 the
response is a success with empty context and no sources. -/
theorem C10_witness :
    get_rag_context envOk gDefault "vs" "c" "q" 50 5 =
      ⟨"success", "q", "", [], 0⟩ :=
  C10_theorem envOk gDefault "vs" "c" "q" 50 5 (toResult nodeA) []
    (by decide) (by decide) (by decide)

theorem mkPart_length (fp c : String) :
    (mkPart fp c).length = fp.length + c.length + 5 := by
  have h1 : ("## " : String).length = 3 := rfl
  have h2 : ("\n\n" : String).length = 2 := rfl
  simp [mkPart, String.length_append, h1, h2]
  omega

theorem header_length (fp : String) :
    ("## " ++ fp ++ "\n\n").length = fp.length + 5 := by
  have h1 : ("## " : String).length = 3 := rfl
  have h2 : ("\n\n" : String).length = 2 := rfl
  simp [String.length_append, h1, h2]
  omega

theorem joinParts_cons_length_le (p : String) (ps : List String) :
    (joinParts (p :: ps)).length ≤ p.length + 7 + (joinParts ps).length := by
  cases ps with
  | nil =>
    have h0 : ("" : String).length = 0 := rfl
    simp [joinParts, h0]
  | cons q qs =>
    have h7 : ("\n\n---\n\n" : String).length = 7 := rfl
    simp only [joinParts, String.length_append, h7]
    omega

theorem pack_join_length_le (maxChars : Int) (results : List SearchResult) :
    ∀ total : Nat,
      (joinParts (pack results maxChars total).1).length ≤
        (maxChars - total).toNat + formattingOverhead results maxChars total := by
  induction results with
  | nil =>
    intro total
    simp [pack, joinParts, formattingOverhead]
  | cons r rest ih =>
    intro total
    by_cases h1 : (total : Int) + r.chunk.length > maxChars
    · by_cases h2 : maxChars - (total : Int) > 100
      · rw [show pack (r :: rest) maxChars total =
            ([mkPart r.file_path
              (pyTake r.chunk (maxChars - (total : Int)).toNat ++ "...")],
              []) from by simp [pack, h1, h2]]
        rw [show formattingOverhead (r :: rest) maxChars total =
            ("## " ++ r.file_path ++ "\n\n").length + ("..." : String).length
            from by simp [formattingOverhead, h1, h2]]
        have hj : joinParts [mkPart r.file_path
            (pyTake r.chunk (maxChars - (total : Int)).toNat ++ "...")] =
            mkPart r.file_path
              (pyTake r.chunk (maxChars - (total : Int)).toNat ++ "...") := rfl
        rw [hj, mkPart_length, String.length_append, pyTake_length,
          header_length]
        have h3 : ("..." : String).length = 3 := rfl
        rw [h3]
        omega
      · rw [show pack (r :: rest) maxChars total = ([], []) from by
          simp [pack, h1, h2]]
        rw [show formattingOverhead (r :: rest) maxChars total = 0 from by
          simp [formattingOverhead, h1, h2]]
        have h0 : (joinParts []).length = 0 := rfl
        simp [h0]
    · rw [show (pack (r :: rest) maxChars total).1 =
          mkPart r.file_path r.chunk ::
            (pack rest maxChars (total + r.chunk.length)).1 from by
        simp [pack, h1]]
      rw [show formattingOverhead (r :: rest) maxChars total =
          ("## " ++ r.file_path ++ "\n\n").length +
            ("\n\n---\n\n" : String).length +
            formattingOverhead rest maxChars (total + r.chunk.length) from by
        simp [formattingOverhead, h1]]
      have hj := joinParts_cons_length_le (mkPart r.file_path r.chunk)
        (pack rest maxChars (total + r.chunk.length)).1
      have hih := ih (total + r.chunk.length)
      have hmk := mkPart_length r.file_path r.chunk
      have hh := header_length r.file_path
      have hsep : ("\n\n---\n\n" : String).length = 7 := rfl
      rw [hh, hsep]
      rw [hmk] at hj
      push_cast at h1
      omega

/-- C3: context_length equals the exact length of the final joined
context string; it never exceeds max_chars (as a Nat) plus the formatting
overhead of the per-source headers, separators and truncation marker; and
whenever the packing loop truncates, the sliced content it appends is
strictly longer than the 100-character minimum. -/
theorem C3_theorem (env : SearchEnv) (gcfg : GlobalConfig)
    (vector_store_path coll_name q : String) (maxChars : Int)
    (maxSources : Nat) :
    ((get_rag_context env gcfg vector_store_path coll_name q maxChars
        maxSources).context_length =
      (get_rag_context env gcfg vector_store_path coll_name q maxChars
        maxSources).context.length) ∧
    ((get_rag_context env gcfg vector_store_path coll_name q maxChars
        maxSources).context_length ≤
      maxChars.toNat + formattingOverhead
        (search env vector_store_path coll_name q maxSources
          gcfg.min_relevance_score).results maxChars 0) ∧
    (∀ (r : SearchResult) (rest : List SearchResult) (total : Nat),
      (total : Int) + r.chunk.length > maxChars →
      maxChars - (total : Int) > 100 →
      ∃ slice, (pack (r :: rest) maxChars total).1 =
          [mkPart r.file_path (slice ++ "...")] ∧ 100 < slice.length) := by
  refine ⟨?_, ?_, ?_⟩
  · by_cases h : (search env vector_store_path coll_name q maxSources
        gcfg.min_relevance_score).status = "error" ∨
        (search env vector_store_path coll_name q maxSources
          gcfg.min_relevance_score).results = []
    · simp [get_rag_context, h]
    · simp [get_rag_context, h]
  · by_cases h : (search env vector_store_path coll_name q maxSources
        gcfg.min_relevance_score).status = "error" ∨
        (search env vector_store_path coll_name q maxSources
          gcfg.min_relevance_score).results = []
    · simp [get_rag_context, h]
    · simp only [get_rag_context, if_neg h]
      have h0 := pack_join_length_le maxChars
        (search env vector_store_path coll_name q maxSources
          gcfg.min_relevance_score).results 0
      simpa using h0
  · intro r rest total h1 h2
    refine ⟨pyTake r.chunk (maxChars - (total : Int)).toNat, ?_, ?_⟩
    · simp [pack, h1, h2]
    · rw [pyTake_length]
      have hlen : maxChars - (total : Int) < (r.chunk.length : Int) := by
        omega
      omega

/-- C3 witness: the three parts of C3 evaluated at a concrete healthy
environment with a 200-character top chunk and max_chars = 150. -/
theorem C3_witness :
    ((get_rag_context envOk gDefault "vs" "c" "q" 150 5).context_length =
      (get_rag_context envOk gDefault "vs" "c" "q" 150 5).context.length) ∧
    ((get_rag_context envOk gDefault "vs" "c" "q" 150 5).context_length ≤
      (150 : Int).toNat + formattingOverhead
        (search envOk "vs" "c" "q" 5
          gDefault.min_relevance_score).results 150 0) ∧
    (∃ slice, (pack (toResult nodeA :: []) 150 0).1 =
        [mkPart (toResult nodeA).file_path (slice ++ "...")] ∧
      100 < slice.length) :=
  ⟨(C3_theorem envOk gDefault "vs" "c" "q" 150 5).1,
    (C3_theorem envOk gDefault "vs" "c" "q" 150 5).2.1,
    (C3_theorem envOk gDefault "vs" "c" "q" 150 5).2.2 (toResult nodeA) [] 0
      (by decide) (by decide)⟩

/-- C1 counterexample: against the 200-character top chunk,
getRagContext with maxChars = 50 returns an empty context and an empty
sources list (no truncated slice, no source with a truncated char_count),
and with maxChars = 150 the truncated, marker-terminated part appears in
the context while the sources list is still empty, so the truncated chunk
is never recorded as a used source. -/
theorem C1_counterexample :
    get_rag_context envOk gDefault "vs" "c" "q" 50 5 =
      ⟨"success", "q", "", [], 0⟩ ∧
    (get_rag_context envOk gDefault "vs" "c" "q" 150 5).sources = [] ∧
    (get_rag_context envOk gDefault "vs" "c" "q" 150 5).context =
      mkPart "notes/a.md" (pyTake longText 150 ++ "...") := by
  refine ⟨by decide, by decide, by decide⟩

/-- C1 amended: when the full chunk of a ranked result would exceed the
remaining budget, the packing loop stops there; if the remaining budget
exceeds 100 characters it first appends the chunk truncated to the
remaining budget with a truncation marker, but no source is recorded for
the truncated chunk (sources carry char_count only for fully included
chunks); if the remaining budget is at most 100 (as with maxChars = 50
and total = 0), nothing at all is appended. -/
theorem C1_theorem (r : SearchResult) (rest : List SearchResult)
    (maxChars : Int) (total : Nat)
    (hover : (total : Int) + r.chunk.length > maxChars) :
    (maxChars - (total : Int) > 100 →
      pack (r :: rest) maxChars total =
        ([mkPart r.file_path
            (pyTake r.chunk (maxChars - (total : Int)).toNat ++ "...")],
          [])) ∧
    (¬ maxChars - (total : Int) > 100 →
      pack (r :: rest) maxChars total = ([], [])) := by
  constructor
  · intro h2
    simp [pack, hover, h2]
  · intro h2
    simp [pack, hover, h2]

/-- C1 witness: the amended packing behavior at the concrete 200-character
chunk, for remaining budgets 150 (truncate, no source) and 50 (drop). -/
theorem C1_witness :
    pack [toResult nodeA] 150 0 =
      ([mkPart "notes/a.md" (pyTake longText 150 ++ "...")], []) ∧
    pack [toResult nodeA] 50 0 = ([], []) :=
  ⟨(C1_theorem (toResult nodeA) [] 150 0 (by decide)).1 (by decide),
    (C1_theorem (toResult nodeA) [] 50 0 (by decide)).2 (by decide)⟩

/-- C2 counterexample: calling search before any index run (missing
vector store) yields the same generic response as an arbitrary backend
retrieval failure: status error, zero results, and no NotFound-class
error or index-first instruction surfaced to the caller. -/
theorem C2_counterexample :
    search envNoStore "vs" "c" "q" 5 (mkRat 3 10) = ⟨"error", "q", [], 0⟩ ∧
    search envNoStore "vs" "c" "q" 5 (mkRat 3 10) =
      search envRetrFail "vs" "c" "q" 5 (mkRat 3 10) := by
  refine ⟨by decide, by decide⟩

/-- C2 amended: when the vector-store path or the collection is missing,
load_index raises a NotFound-class error (FileNotFoundError or
ValueError) whose message ends with an instruction to run the index
command first, but search catches every exception and returns status
error with zero results; any other retrieval failure produces the same
status-error, zero-result response, never an unhandled fault. -/
theorem C2_theorem (env : SearchEnv) (vector_store_path coll_name q : String)
    (topK : Nat) (minScore : Rat) :
    (env.storeExists = false ∨ env.collectionExists = false →
      (∃ e, load_index env vector_store_path coll_name = .error e ∧
        ∃ a, e.msg = a ++ indexFirstDirective) ∧
      search env vector_store_path coll_name q topK minScore =
        ⟨"error", q, [], 0⟩) ∧
    (env.retrieveFails = true →
      search env vector_store_path coll_name q topK minScore =
        ⟨"error", q, [], 0⟩) := by
  constructor
  · intro h
    cases hs : env.storeExists with
    | false =>
      refine ⟨⟨.fileNotFound
        (("Vector store not found at " ++ vector_store_path ++ ". ") ++
          indexFirstDirective), by simp [load_index, hs],
        "Vector store not found at " ++ vector_store_path ++ ". ", rfl⟩, ?_⟩
      simp [search, searchRun, load_index, hs]
    | true =>
      have hc : env.collectionExists = false := by
        rcases h with h | h
        · rw [hs] at h
          cases h
        · exact h
      refine ⟨⟨.valueError
        (("Collection \x27" ++ coll_name ++ "\x27 not found. ") ++
          indexFirstDirective), by simp [load_index, hs, hc],
        "Collection \x27" ++ coll_name ++ "\x27 not found. ", rfl⟩, ?_⟩
      simp [search, searchRun, load_index, hs, hc]
  · intro hrf
    cases hs : env.storeExists with
    | false => simp [search, searchRun, load_index, hs]
    | true =>
      cases hc : env.collectionExists with
      | false => simp [search, searchRun, load_index, hs, hc]
      | true => simp [search, searchRun, load_index, retrieveTop, hs, hc, hrf]

/-- C2 witness: the amended behavior at a concrete pre-index environment
(missing store) and a concrete backend-failure environment. -/
theorem C2_witness :
    ((∃ e, load_index envNoStore "vs" "c" = .error e ∧
        ∃ a, e.msg = a ++ indexFirstDirective) ∧
      search envNoStore "vs" "c" "q" 5 (mkRat 3 10) =
        ⟨"error", "q", [], 0⟩) ∧
    search envRetrFail "vs" "c" "q" 5 (mkRat 3 10) =
      ⟨"error", "q", [], 0⟩ :=
  ⟨(C2_theorem envNoStore "vs" "c" "q" 5 (mkRat 3 10)).1 (Or.inl rfl),
    (C2_theorem envRetrFail "vs" "c" "q" 5 (mkRat 3 10)).2 rfl⟩

/-- C6: a vault whose scan finds no markdown files makes index_vault
return status error with zero documents and chunks and the explicit
no-markdown-files message, without ever invoking create_index, so the
vector-store collection is neither created nor cleared. -/
theorem C6_theorem (env : IndexEnv) (vault_path : String)
    (vcfg : VaultConfig) (gcfg : GlobalConfig)
    (hscan : scan_documents env.fs vault_path vcfg = []) :
    index_vault env vault_path vcfg gcfg =
      (⟨"error", 0, 0, joinPath vault_path vcfg.vector_store,
        ["No markdown files found in specified directories"]⟩, false) := by
  simp [index_vault, hscan]

/-- C6 witness: indexing over an empty directory tree. -/
theorem C6_witness :
    index_vault envEmptyIdx "vault" vcfgW gDefault =
      (⟨"error", 0, 0, joinPath "vault" ".vector_store",
        ["No markdown files found in specified directories"]⟩, false) :=
  C6_theorem envEmptyIdx "vault" vcfgW gDefault (by decide)

/-- C7: scan_documents returns a duplicate-free, lexicographically sorted
list of paths; a configured entry that does not exist contributes nothing
(it is skipped, not an error); and re-scanning an unchanged tree yields
the identical list. -/
theorem C7_theorem (fs : FS) (vault_path : String) (cfg : VaultConfig) :
    (scan_documents fs vault_path cfg).Nodup ∧
    List.Sorted (· ≤ ·) (scan_documents fs vault_path cfg) ∧
    (∀ (d : String) (rest : List String) (name vs : String),
      fs.entry (joinPath vault_path d) = FSEntry.absent →
      scan_documents fs vault_path ⟨name, d :: rest, vs⟩ =
        scan_documents fs vault_path ⟨name, rest, vs⟩) ∧
    (∀ fs2 : FS, (∀ p, fs2.entry p = fs.entry p) →
      scan_documents fs2 vault_path cfg = scan_documents fs vault_path cfg) := by
  refine ⟨?_, ?_, ?_, ?_⟩
  · exact (@List.perm_insertionSort String (· ≤ ·) strLeDec _).symm.nodup
      (List.nodup_dedup _)
  · exact @List.sorted_insertionSort String (· ≤ ·) strLeDec _ _ _
  · intro d rest name vs habs
    simp [scan_documents, scanOne, habs]
  · intro fs2 h
    have hfs : fs2 = fs := by
      cases fs2
      cases fs
      simp only [FS.mk.injEq]
      funext p
      exact h p
    rw [hfs]

/-- C7 witness: the scan properties at a concrete tree, with a concrete
absent entry and an entry-wise identical rescan. -/
theorem C7_witness :
    (scan_documents fsEmpty "v" vcfgW).Nodup ∧
    List.Sorted (· ≤ ·) (scan_documents fsEmpty "v" vcfgW) ∧
    scan_documents fsEmpty "v" ⟨"notes", ["gone"], ".vector_store"⟩ =
      scan_documents fsEmpty "v" ⟨"notes", [], ".vector_store"⟩ ∧
    scan_documents fsEmpty "v" vcfgW = scan_documents fsEmpty "v" vcfgW :=
  ⟨(C7_theorem fsEmpty "v" vcfgW).1,
    (C7_theorem fsEmpty "v" vcfgW).2.1,
    (C7_theorem fsEmpty "v" vcfgW).2.2.1 "gone" [] "notes" ".vector_store" rfl,
    (C7_theorem fsEmpty "v" vcfgW).2.2.2 fsEmpty (fun _ => rfl)⟩

/-- C8: in the success path, get_stats estimates document_count as the
number of distinct file_path metadata values, falling back to
chunk_count / 3 (integer division) exactly when the stored metadata is
unusable for the estimate, i.e. when there are no metadata entries. -/
theorem C8_theorem (env : StatsEnv) (vault_path : String)
    (vcfg : VaultConfig) (gcfg : GlobalConfig)
    (hstore : env.storeExists = true) (hcoll : env.collectionMissing = false) :
    ((get_stats env vault_path vcfg gcfg).document_count =
      if distinctFilePaths env.metadatas > 0 then
        distinctFilePaths env.metadatas
      else env.chunkCount / 3) ∧
    (env.metadatas = [] →
      (get_stats env vault_path vcfg gcfg).document_count =
        env.chunkCount / 3) ∧
    (env.metadatas ≠ [] →
      (get_stats env vault_path vcfg gcfg).document_count =
        distinctFilePaths env.metadatas) := by
  have hmain : (get_stats env vault_path vcfg gcfg).document_count =
      if distinctFilePaths env.metadatas > 0 then
        distinctFilePaths env.metadatas
      else env.chunkCount / 3 := by
    simp [get_stats, hstore, hcoll]
  refine ⟨hmain, ?_, ?_⟩
  · intro hmeta
    rw [hmain, hmeta]
    simp [distinctFilePaths]
  · intro hmeta
    rw [hmain]
    have hpos : 0 < distinctFilePaths env.metadatas := by
      unfold distinctFilePaths
      rw [List.length_pos]
      simp only [ne_eq, List.dedup_eq_nil, List.map_eq_nil_iff]
      exact hmeta
    simp [hpos]

/-- C8 witness: the estimate at a collection of three chunks over two
distinct files, and the fallback at a collection with no metadata. -/
theorem C8_witness :
    ((get_stats envStats "v" vcfgW gDefault).document_count =
      if distinctFilePaths envStats.metadatas > 0 then
        distinctFilePaths envStats.metadatas
      else envStats.chunkCount / 3) ∧
    (get_stats envStatsEmptyMeta "v" vcfgW gDefault).document_count =
      envStatsEmptyMeta.chunkCount / 3 ∧
    (get_stats envStats "v" vcfgW gDefault).document_count =
      distinctFilePaths envStats.metadatas :=
  ⟨(C8_theorem envStats "v" vcfgW gDefault rfl rfl).1,
    (C8_theorem envStatsEmptyMeta "v" vcfgW gDefault rfl rfl).2.1 rfl,
    (C8_theorem envStats "v" vcfgW gDefault rfl rfl).2.2 (by decide)⟩
